import Mathlib

/-!
Shallow embedding of the BotAdminDashboard attribution/conversion pipeline:
the click-tracking storage methods (`server/storage.ts`), the link-redirect,
cookie-completion and webhook routes (`server/routes.ts`), and the Telegram
bot update handlers (`server/telegramBot.ts`).  Timestamps are modelled as
integer milliseconds (JavaScript `Date.now()`); nullable columns as `Option`;
the nondeterministic external effects (Telegram send, Facebook Conversion API)
as an explicit oracle.  Storage methods that are called from the sources but
whose definitions are not part of them are modelled from the spec and marked
as such in their doc comments.
-/

/-- JavaScript truthiness of a nullable string: `null`/`undefined` and the
empty string are falsy. -/
def jsTruthy : Option String → Bool
  | none => false
  | some s => s ≠ ""

/-- JavaScript `x || null` on a nullable string: keeps a truthy value,
collapses a falsy one to `null`. -/
def jsOrNull (x : Option String) : Option String :=
  if jsTruthy x then x else none

/-- JavaScript `x || d` on a nullable string. -/
def jsGetD (x : Option String) (d : String) : String :=
  match jsOrNull x with
  | some s => s
  | none => d

/-- Internal channel-membership state stored in `bot_users.campus_free_channel`
(values `"notjoined"`, `"joined"`, `"left"` in the schema). -/
inductive ChannelStatus where
  | notjoined
  | joined
  | left
deriving DecidableEq, Repr

/-- Row of the `bot_users` table (`shared/schema.ts`). -/
structure BotUser where
  telegramId : String
  username : Option String
  firstName : Option String
  lastName : Option String
  source : String
  fbclid : Option String
  campusFreeChannel : ChannelStatus
  channelJoinedAt : Option Int
  joinedAt : Int
  lastActiveAt : Int
  isActive : String
  messageCount : Int
deriving DecidableEq, Repr

/-- Row of the `welcome_messages` table (`shared/schema.ts`). -/
structure WelcomeMessage where
  id : String
  source : String
  message : String
  isEnabled : String
  title : String
  buttonText : Option String
  buttonLink : Option String
deriving DecidableEq, Repr

/-- Row of the `link_clicks` table (`shared/schema.ts`): one tracked visit to
an outbound button link.  `fbclid` is the advertising click id captured at
click time, `fbc`/`fbp` the browser/pixel cookies completed later. -/
structure LinkClick where
  welcomeMessageId : String
  telegramUserId : String
  originalUrl : String
  fbclid : Option String
  fbc : Option String
  fbp : Option String
  userAgent : Option String
  ipAddress : Option String
  clickedAt : Int
deriving DecidableEq, Repr

/-- The mutable database state the pipeline reads and writes. -/
structure Store where
  botUsers : List BotUser
  welcomeMessages : List WelcomeMessage
  linkClicks : List LinkClick
deriving DecidableEq, Repr

/-- `DatabaseStorage.trackLinkClick` (`server/storage.ts`): inserts a new
click row; never touches existing rows. -/
def trackLinkClick (s : Store) (clickData : LinkClick) : Store :=
  { s with linkClicks := s.linkClicks ++ [clickData] }

/-- `DatabaseStorage.updateClickCookies` (`server/storage.ts`): sets `fbc` and
`fbp` to the supplied values on every click row matching the (message, user)
pair whose `clickedAt` is at least `now - 5 minutes`. -/
def updateClickCookies (clicks : List LinkClick) (messageId userId : String)
    (fbc fbp : Option String) (now : Int) : List LinkClick :=
  let fiveMinutesAgo := now - 5 * 60 * 1000
  clicks.map fun c =>
    if c.welcomeMessageId = messageId ∧ c.telegramUserId = userId ∧
        fiveMinutesAgo ≤ c.clickedAt then
      { c with fbc := fbc, fbp := fbp }
    else
      c

/-- `DatabaseStorage.updateBotUserActivity` (`server/storage.ts`): bumps
`lastActiveAt` and `messageCount`, and overwrites `fbclid` only when a truthy
value is supplied. -/
def updateBotUserActivity (s : Store) (telegramId : String)
    (fbclid : Option String) (now : Int) : Store :=
  { s with botUsers := s.botUsers.map fun u =>
      if u.telegramId = telegramId then
        { u with lastActiveAt := now,
                 messageCount := u.messageCount + 1,
                 fbclid := if jsTruthy fbclid then fbclid else u.fbclid }
      else u }

/-- `DatabaseStorage.createBotUser` (`server/storage.ts`): plain insert; the
unique constraint on `telegram_id` makes a duplicate insert fail (the caller
catches the duplicate-key error). -/
def createBotUser (s : Store) (u : BotUser) : Except String Store :=
  if s.botUsers.any fun b => b.telegramId = u.telegramId then
    Except.error "duplicate key value violates unique constraint"
  else
    Except.ok { s with botUsers := s.botUsers ++ [u] }

/-- `DatabaseStorage.getWelcomeMessage` (`server/storage.ts`): source-specific
message first, falling back to the `"default"` source. -/
def getWelcomeMessage (s : Store) (source : Option String) : Option WelcomeMessage :=
  let targetSource := jsGetD source "default"
  match s.welcomeMessages.find? fun m => m.source = targetSource with
  | some m => some m
  | none => s.welcomeMessages.find? fun m => m.source = "default"

/-- Modelled from the spec: `storage.getBotUserByTelegramId` is called by
`handleChatMemberUpdate` but its definition is not among the sources; per
§4.3 of the spec it looks the user up by the unique `telegramId` key,
returning nothing for a user unknown to the store. -/
def getBotUserByTelegramId (s : Store) (telegramId : String) : Option BotUser :=
  s.botUsers.find? fun u => u.telegramId = telegramId

/-- Modelled from the spec: `storage.updateChannelStatus` is called by
`handleChatMemberUpdate` but its definition is not among the sources; per
§4.3 and the §3 invariant it persists the new channel status and sets
`channelJoinedAt = now` on a transition into `joined`, leaving
`channelJoinedAt` unchanged on a transition into `left`. -/
def updateChannelStatus (users : List BotUser) (telegramId : String)
    (status : ChannelStatus) (now : Int) : List BotUser :=
  users.map fun u =>
    if u.telegramId = telegramId then
      { u with campusFreeChannel := status,
               channelJoinedAt :=
                 if status = ChannelStatus.joined then some now
                 else u.channelJoinedAt }
    else u

/-- Modelled from the spec: `storage.getRecentClickData` is called by
`fireChannelJoinConversion` but its definition is not among the sources; per
§4.4 of the spec it returns the most recent click record for the user
(across any welcome message) whose `clickedAt` lies within the last
`minutes` minutes, if any. -/
def getRecentClickData (clicks : List LinkClick) (telegramUserId : String)
    (minutes : Int) (now : Int) : Option LinkClick :=
  let cutoff := now - minutes * 60 * 1000
  let eligible := clicks.filter fun c =>
    c.telegramUserId = telegramUserId ∧ cutoff ≤ c.clickedAt
  eligible.foldl (fun acc c =>
    match acc with
    | none => some c
    | some b => if b.clickedAt ≤ c.clickedAt then some c else some b) none

/-- Outcome of the single external Facebook Conversion API `fetch`, supplied
as an oracle: a 2xx response, a non-2xx response, or a thrown network error. -/
inductive ApiOutcome where
  | ok
  | httpError (body : String)
  | networkThrow (msg : String)
deriving DecidableEq, Repr

/-- The payload of one attempted external Conversion API call
(`fireChannelJoinConversion` builds exactly this shape). -/
structure ConversionCall where
  eventName : String
  eventTime : Int
  fbc : String
  fbp : String
  contentName : String
  contentCategory : String
deriving DecidableEq, Repr

/-- How one invocation of the Conversion Correlator ended. -/
inductive ConvResult where
  | skippedNoRecentData
  | firedOk
  | firedApiError
  | firedThrew
deriving DecidableEq, Repr

/-- `TelegramBot.fireChannelJoinConversion` (`server/telegramBot.ts`): looks up
the user's click data from the last 2 minutes, skips (no external call) when
there is none or when `fbc`/`fbp` is falsy, otherwise issues exactly one
external call carrying the two cookie ids; every failure of that call is
caught and logged, never rethrown. -/
def fireChannelJoinConversion (clicks : List LinkClick) (telegramUserId : String)
    (now : Int) (api : ApiOutcome) : ConvResult × List ConversionCall :=
  match getRecentClickData clicks telegramUserId 2 now with
  | none => (ConvResult.skippedNoRecentData, [])
  | some clickData =>
    if ¬ jsTruthy clickData.fbc ∨ ¬ jsTruthy clickData.fbp then
      (ConvResult.skippedNoRecentData, [])
    else
      let call : ConversionCall :=
        { eventName := "Contact",
          eventTime := now / 1000,
          fbc := clickData.fbc.getD "",
          fbp := clickData.fbp.getD "",
          contentName := "Campus Free Channel Join",
          contentCategory := "Channel Membership" }
      match api with
      | ApiOutcome.ok => (ConvResult.firedOk, [call])
      | ApiOutcome.httpError _ => (ConvResult.firedApiError, [call])
      | ApiOutcome.networkThrow _ => (ConvResult.firedThrew, [call])

/-- Telegram chat-member status (`TelegramChatMember.status` union type in
`server/telegramBot.ts`). -/
inductive ChatMemberStatus where
  | creator
  | administrator
  | member
  | restricted
  | left
  | kicked
deriving DecidableEq, Repr

/-- Telegram user object (fields the handlers read). -/
structure TgUser where
  id : Int
  is_bot : Bool
  first_name : String
  last_name : Option String
  username : Option String
deriving DecidableEq, Repr

/-- Telegram chat object (fields the handlers read). -/
structure TgChat where
  id : Int
  type : String
deriving DecidableEq, Repr

/-- `TelegramChatMember`: a user together with a membership status. -/
structure TgChatMember where
  user : TgUser
  status : ChatMemberStatus
deriving DecidableEq, Repr

/-- `TelegramChatMemberUpdate`: a channel membership transition event
(`sender` stands for the source field `from`, a Lean keyword). -/
structure ChatMemberUpdate where
  chat : TgChat
  sender : TgUser
  date : Int
  old_chat_member : TgChatMember
  new_chat_member : TgChatMember
deriving DecidableEq, Repr

/-- How `handleChatMemberUpdate` classified one inbound membership update. -/
inductive TransitionKind where
  | ignoredOtherChannel
  | ignoredUnknownUser
  | joinDetected
  | joinedNoConversion
  | leftObserved
  | skippedOtherStatus
deriving DecidableEq, Repr

/-- The configured channel of interest (`CAMPUS_CHANNEL_ID`). -/
def campusChannelId : String := "-1001930548228"

/-- `TelegramBot.handleChatMemberUpdate` (`server/telegramBot.ts`): drops
updates for other channels and for users unknown to the store; maps
`member`/`administrator`/`creator` to internal `joined` (invoking the
Conversion Correlator exactly when the old status was `left` or `kicked`),
maps `left`/`kicked` to internal `left`, and skips any other new status.
Returns the updated store, the classification, and the attempted external
calls. -/
def handleChatMemberUpdate (s : Store) (upd : ChatMemberUpdate) (now : Int)
    (api : ApiOutcome) : Store × TransitionKind × List ConversionCall :=
  if toString upd.chat.id ≠ campusChannelId then
    (s, TransitionKind.ignoredOtherChannel, [])
  else
    let userId := toString upd.new_chat_member.user.id
    let oldStatus := upd.old_chat_member.status
    let newStatus := upd.new_chat_member.status
    match getBotUserByTelegramId s userId with
    | none => (s, TransitionKind.ignoredUnknownUser, [])
    | some _ =>
      if newStatus = ChatMemberStatus.member ∨
          newStatus = ChatMemberStatus.administrator ∨
          newStatus = ChatMemberStatus.creator then
        if oldStatus = ChatMemberStatus.left ∨ oldStatus = ChatMemberStatus.kicked then
          let calls := (fireChannelJoinConversion s.linkClicks userId now api).2
          ({ s with botUsers :=
              updateChannelStatus s.botUsers userId ChannelStatus.joined now },
           TransitionKind.joinDetected, calls)
        else
          ({ s with botUsers :=
              updateChannelStatus s.botUsers userId ChannelStatus.joined now },
           TransitionKind.joinedNoConversion, [])
      else if newStatus = ChatMemberStatus.left ∨ newStatus = ChatMemberStatus.kicked then
        ({ s with botUsers :=
            updateChannelStatus s.botUsers userId ChannelStatus.left now },
         TransitionKind.leftObserved, [])
      else
        (s, TransitionKind.skippedOtherStatus, [])

/-- Response of the `GET /r/:messageId/:userId` redirect route. -/
inductive ClickResponse where
  | notFound
  | redirect (url : String)
  | trackingPage (url : String)
deriving DecidableEq, Repr

/-- Query parameters the redirect route appends to the destination
(`URLSearchParams` building; percent-encoding elided). -/
def clickUrlParams (fbclid fbc fbp : Option String) : List String :=
  (if jsTruthy fbclid then ["fbclid=" ++ fbclid.getD ""] else []) ++
  (if jsTruthy fbc then ["fbc=" ++ fbc.getD ""] else []) ++
  (if jsTruthy fbp then ["fbp=" ++ fbp.getD ""] else [])

/-- Appends a query string to a URL with `?` or `&` depending on whether the
URL already has a query part. -/
def appendParams (url : String) (params : String) : String :=
  if params = "" then url
  else if url.contains '?' then url ++ "&" ++ params
  else url ++ "?" ++ params

/-- The `GET /r/:messageId/:userId` handler (`server/routes.ts`): resolves the
message configuration, answers 404 (writing nothing) when the message or its
button link is absent, otherwise records exactly one new click row with
`clickedAt = now` and answers with a redirect (when `direct=true`) or the
pixel tracking page. -/
def recordClickRoute (s : Store) (messageId userId : String)
    (fbclid fbc fbp userAgent ipAddress : Option String) (direct : Bool)
    (now : Int) : ClickResponse × Store :=
  match s.welcomeMessages.find? fun m => m.id = messageId with
  | none => (ClickResponse.notFound, s)
  | some message =>
    if ¬ jsTruthy message.buttonLink then (ClickResponse.notFound, s)
    else
      let url := message.buttonLink.getD ""
      let s1 := trackLinkClick s
        { welcomeMessageId := messageId,
          telegramUserId := userId,
          originalUrl := url,
          fbclid := jsOrNull fbclid,
          fbc := jsOrNull fbc,
          fbp := jsOrNull fbp,
          userAgent := jsOrNull userAgent,
          ipAddress := jsOrNull ipAddress,
          clickedAt := now }
      let finalUrl := appendParams url
        (String.intercalate "&" (clickUrlParams fbclid fbc fbp))
      let resp :=
        if direct then ClickResponse.redirect finalUrl
        else ClickResponse.trackingPage finalUrl
      (resp, s1)

/-- Oracle for the nondeterministic external effects of one unit of work:
whether a Telegram `sendMessage` with a given text succeeds, the outcome of
the Conversion API call, and the random-response index. -/
structure Oracle where
  sendOk : String → Bool
  api : ApiOutcome
  rand : Nat

/-- `TelegramBot.sendMessage` (`server/telegramBot.ts`): throws on a non-ok
Telegram API response (outcome taken from the oracle). -/
def sendMessage (o : Oracle) (chatId : Int) (text : String) : Except String Unit :=
  if o.sendOk text then Except.ok ()
  else Except.error "Telegram API error"

/-- The default welcome text hard-coded in `sendWelcomeMessage`. -/
def defaultWelcomeText : String :=
  "Welcome to our Telegram bot! 🤖\n\nHere are some things you can do:\n• Get help and support\n• Explore our features\n• Stay updated with latest news\n\nFeel free to ask any questions!"

/-- `TelegramBot.sendWelcomeMessage` (`server/telegramBot.ts`): resolves the
configured message (falling back to the default text when disabled or
absent), personalises it, and sends it; on failure the catch block sends a
fallback greeting, whose own failure propagates.  The inline-keyboard options
are elided: they only decorate the send. -/
def sendWelcomeMessage (o : Oracle) (s : Store) (chatId : Int)
    (firstName : String) (source : Option String) : Except String Unit :=
  let cfg := getWelcomeMessage s source
  let message :=
    match cfg with
    | some c => if c.isEnabled = "true" then c.message else defaultWelcomeText
    | none => defaultWelcomeText
  let personalizedMessage := message.replace "\x7bfirstName\x7d" firstName
  match sendMessage o chatId personalizedMessage with
  | Except.ok _ => Except.ok ()
  | Except.error _ => sendMessage o chatId ("Welcome " ++ firstName ++ "! 🤖")

/-- Telegram message object (fields the handlers read; `fromUser` stands for
the source field `from`, a Lean keyword). -/
structure TgMessage where
  message_id : Int
  fromUser : TgUser
  chat : TgChat
  date : Int
  text : Option String
deriving DecidableEq, Repr

/-- Source/fbclid extraction from the `/start` command text
(`handleStart` in `server/telegramBot.ts`). -/
def parseStartParam (text : String) : String × Option String :=
  let parts := text.splitOn " "
  if parts.length > 1 ∧ (parts.getD 1 "").trim ≠ "" then
    let parameter := (parts.getD 1 "").trim
    let pieces := parameter.splitOn "_fbclid="
    if pieces.length > 1 then (pieces.getD 0 "", some (pieces.getD 1 ""))
    else (parameter, none)
  else ("Direct", none)

/-- `TelegramBot.handleStart` (`server/telegramBot.ts`): registers the user
(updating activity instead when the insert hits the duplicate-key error) and
sends the welcome message; the catch block sends a plain greeting whose own
failure rethrows.  An error value carries the store as already mutated. -/
def handleStart (o : Oracle) (s : Store) (msg : TgMessage) (now : Int) :
    Except (String × Store) Store :=
  let user := msg.fromUser
  let chatId := msg.chat.id
  let text := msg.text.getD ""
  let (source, fbclid) := parseStartParam text
  let s1 :=
    match createBotUser s
      { telegramId := toString user.id,
        username := jsOrNull user.username,
        firstName := some user.first_name,
        lastName := jsOrNull user.last_name,
        source := source,
        fbclid := fbclid,
        campusFreeChannel := ChannelStatus.notjoined,
        channelJoinedAt := none,
        joinedAt := now,
        lastActiveAt := now,
        isActive := "active",
        messageCount := 0 } with
    | Except.ok s1 => s1
    | Except.error _ => updateBotUserActivity s (toString user.id) fbclid now
  match sendWelcomeMessage o s1 chatId user.first_name (some source) with
  | Except.ok _ => Except.ok s1
  | Except.error _ =>
    match sendMessage o chatId ("Welcome " ++ user.first_name ++ "! 🤖") with
    | Except.ok _ => Except.ok s1
    | Except.error e => Except.error (e, s1)

/-- Case-insensitive substring test, modelling SQL `ILIKE '%pat%'` on a
nullable column (NULL never matches). -/
def ilikeContains (field : Option String) (pat : String) : Bool :=
  match field with
  | none => false
  | some v =>
    (List.range (v.length + 1)).any fun i =>
      String.isPrefixOf pat.toLower (v.toLower.drop i)

/-- Insertion into a list kept in descending `joinedAt` order. -/
def insertByJoinedDesc (u : BotUser) : List BotUser → List BotUser
  | [] => [u]
  | v :: rest =>
    if u.joinedAt ≤ v.joinedAt then v :: insertByJoinedDesc u rest
    else u :: v :: rest

/-- `DatabaseStorage.getBotUsers` (`server/storage.ts`): optional
search/source filters, ordering by `joinedAt` descending, pagination; returns
the page and the total filtered count. -/
def getBotUsers (s : Store) (search : String) (source : String)
    (page limit : Nat) : List BotUser × Nat :=
  let afterSearch :=
    if search ≠ "" then
      s.botUsers.filter fun u =>
        ilikeContains u.username search || ilikeContains u.firstName search ||
          ilikeContains u.lastName search
    else s.botUsers
  let filtered :=
    if source ≠ "" then afterSearch.filter fun u => u.source = source
    else afterSearch
  let ordered := filtered.foldr insertByJoinedDesc []
  (((ordered.drop ((page - 1) * limit)).take limit), filtered.length)

/-- The `/help` text constant. -/
def helpText : String :=
  "\n🤖 <b>Bot Commands</b>\n\n/start - Start the bot and get welcome message\n/help - Show this help message\n/stats - Get your usage statistics\n\n<i>More features coming soon!</i>\n    "

/-- `TelegramBot.handleHelp` (`server/telegramBot.ts`). -/
def handleHelp (o : Oracle) (chatId : Int) : Except String Unit :=
  sendMessage o chatId helpText

/-- The statistics text `handleStats` sends (locale date formatting modelled
as plain integer rendering; only the send outcome matters downstream). -/
def statsText (u : BotUser) : String :=
  "\n📊 <b>Your Statistics</b>\n\n👤 Name: " ++ (u.firstName.getD "") ++ " " ++
    (u.lastName.getD "") ++ "\n📅 Joined: " ++ toString u.joinedAt ++
    "\n🕒 Last Active: " ++ toString u.lastActiveAt ++
    "\n💬 Messages Sent: " ++ toString u.messageCount ++ "\n📊 Status: " ++
    (if u.isActive = "active" then "Active" else "Inactive") ++ "\n        "

/-- `TelegramBot.handleStats` (`server/telegramBot.ts`): looks the user up and
sends the statistics; any send failure is caught and answered with an apology
message, whose own failure propagates. -/
def handleStats (o : Oracle) (s : Store) (msg : TgMessage) : Except String Unit :=
  let attempt :=
    match (getBotUsers s (toString msg.fromUser.id) "" 1 1).1 with
    | userInfo :: _ => sendMessage o msg.chat.id (statsText userInfo)
    | [] =>
      sendMessage o msg.chat.id "No statistics available. Please send /start first."
  match attempt with
  | Except.ok _ => Except.ok ()
  | Except.error _ =>
    sendMessage o msg.chat.id
      "Sorry, I couldn\x27t retrieve your statistics right now."

/-- The canned replies for a non-command message. -/
def randomResponses : List String :=
  ["Thanks for your message! 😊",
   "I\x27m a simple bot, but I\x27m here to help! Use /help to see what I can do.",
   "Hello! How can I assist you today?",
   "I received your message! For available commands, type /help."]

/-- `TelegramBot.handleMessage` (`server/telegramBot.ts`): updates activity
(its own failures are caught), then dispatches on the command prefix; a
non-command message gets one oracle-chosen canned reply.  An error value
carries the store as already mutated. -/
def handleMessage (o : Oracle) (s : Store) (msg : TgMessage) (now : Int) :
    Except (String × Store) Store :=
  let user := msg.fromUser
  let text := msg.text.getD ""
  let s1 := updateBotUserActivity s (toString user.id) none now
  if text.startsWith "/start" then handleStart o s1 msg now
  else if text.startsWith "/help" then
    match handleHelp o msg.chat.id with
    | Except.ok _ => Except.ok s1
    | Except.error e => Except.error (e, s1)
  else if text.startsWith "/stats" then
    match handleStats o s1 msg with
    | Except.ok _ => Except.ok s1
    | Except.error e => Except.error (e, s1)
  else
    let response := randomResponses.getD (o.rand % randomResponses.length) ""
    match sendMessage o msg.chat.id response with
    | Except.ok _ => Except.ok s1
    | Except.error e => Except.error (e, s1)

/-- `TelegramUpdate`: the update envelope with its optional kind fields. -/
structure TelegramUpdate where
  update_id : Int
  message : Option TgMessage
  chat_member : Option ChatMemberUpdate
deriving DecidableEq, Repr

/-- A parsed webhook request body: either a well-shaped envelope (possibly
with neither recognised field) or a non-object value whose property access
throws inside `processUpdate`. -/
inductive UpdateEnvelope where
  | valid (u : TelegramUpdate)
  | nonObject
deriving DecidableEq, Repr

/-- The try-block of `TelegramBot.processUpdate` (`server/telegramBot.ts`)
before its catch: dispatches a `message` update to `handleMessage` and a
`chat_member` update to `handleChatMemberUpdate`; errors (including the
property access on a non-object body) escape as exceptions carrying the
store as mutated so far. -/
def processUpdateBody (o : Oracle) (s : Store) (env : UpdateEnvelope)
    (now : Int) : Except (String × Store) (Store × List ConversionCall) :=
  match env with
  | UpdateEnvelope.nonObject =>
    Except.error ("TypeError: cannot read properties", s)
  | UpdateEnvelope.valid u =>
    match u.message with
    | some m =>
      match handleMessage o s m now with
      | Except.ok s1 => Except.ok (s1, [])
      | Except.error e => Except.error e
    | none =>
      match u.chat_member with
      | some cm =>
        let r := handleChatMemberUpdate s cm now o.api
        Except.ok (r.1, r.2.2)
      | none => Except.ok (s, [])

/-- `TelegramBot.processUpdate` (`server/telegramBot.ts`): the try-block
wrapped in the catch that logs and swallows every error, so the caller always
gets a normal return. -/
def processUpdate (o : Oracle) (s : Store) (env : UpdateEnvelope) (now : Int) :
    Except (String × Store) (Store × List ConversionCall) :=
  match processUpdateBody o s env now with
  | Except.ok r => Except.ok r
  | Except.error (_, s1) => Except.ok (s1, [])

/-- An HTTP response of the webhook route. -/
structure HttpResponse where
  status : Nat
  body : String
deriving DecidableEq, Repr

/-- The `POST /api/telegram/webhook` handler (`server/routes.ts`): awaits
`processUpdate` and answers 200; its catch branch answers 500 — reachable
only if `processUpdate` itself threw. -/
def webhookRoute (o : Oracle) (s : Store) (env : UpdateEnvelope) (now : Int) :
    HttpResponse × Store :=
  match processUpdate o s env now with
  | Except.ok (s1, _) => ({ status := 200, body := "ok" }, s1)
  | Except.error (_, s1) =>
    ({ status := 500, body := "Webhook processing failed" }, s1)

/-- Pointwise characterisation of `updateClickCookies`: the row at each index
is rewritten exactly when it matches the pair and lies within the 5-minute
window. -/
theorem updateClickCookies_getElem? (clicks : List LinkClick)
    (messageId userId : String) (fbc fbp : Option String) (now : Int) (i : Nat) :
    (updateClickCookies clicks messageId userId fbc fbp now)[i]? =
      clicks[i]?.map fun c =>
        if c.welcomeMessageId = messageId ∧ c.telegramUserId = userId ∧
            now - 5 * 60 * 1000 ≤ c.clickedAt then
          { c with fbc := fbc, fbp := fbp }
        else c := by
  simp [updateClickCookies, List.getElem?_map]

/-- C4: CompleteClickCookies (`updateClickCookies`) rewrites the cookie fields
of every click row matching the given (welcomeMessageId, telegramUserId) pair
whose `clickedAt` is within the last 5 minutes of the call time, and leaves
every row whose `clickedAt` is older than 5 minutes unchanged. -/
theorem updateClickCookies_window_spec (clicks : List LinkClick)
    (messageId userId : String) (fbc fbp : Option String) (now : Int) (i : Nat)
    (c : LinkClick) (hc : clicks[i]? = some c) :
    (c.welcomeMessageId = messageId → c.telegramUserId = userId →
        now - 5 * 60 * 1000 ≤ c.clickedAt →
        (updateClickCookies clicks messageId userId fbc fbp now)[i]? =
          some { c with fbc := fbc, fbp := fbp }) ∧
    (c.clickedAt < now - 5 * 60 * 1000 →
        (updateClickCookies clicks messageId userId fbc fbp now)[i]? = some c) := by
  constructor
  · intro h1 h2 h3
    rw [updateClickCookies_getElem?, hc, Option.map_some', if_pos ⟨h1, h2, h3⟩]
  · intro h
    have hlt : ¬ (now - 5 * 60 * 1000 ≤ c.clickedAt) := by omega
    rw [updateClickCookies_getElem?, hc, Option.map_some',
      if_neg (fun hcond => hlt hcond.2.2)]

/-- C4 witness: a concrete fresh row is rewritten. -/
theorem updateClickCookies_window_spec_witness :
    (updateClickCookies
        [{ welcomeMessageId := "m1", telegramUserId := "42",
           originalUrl := "https://x.example", fbclid := some "cl", fbc := none,
           fbp := none, userAgent := none, ipAddress := none,
           clickedAt := 100000 }] "m1" "42" (some "B") (some "P") 200000)[0]? =
      some { welcomeMessageId := "m1", telegramUserId := "42",
             originalUrl := "https://x.example", fbclid := some "cl",
             fbc := some "B", fbp := some "P", userAgent := none,
             ipAddress := none, clickedAt := 100000 } :=
  (updateClickCookies_window_spec _ "m1" "42" (some "B") (some "P") 200000 0 _
    rfl).1 rfl rfl (by decide)

/-- C10: within the window `updateClickCookies` overwrites unconditionally —
a matching recent row receives exactly the supplied values, null included, so
a second completion carrying nulls erases the cookie ids written by an
earlier completion. -/
theorem updateClickCookies_overwrites_with_null (clicks : List LinkClick)
    (messageId userId : String) (v w : Option String) (t1 t2 : Int) (i : Nat)
    (c : LinkClick) (b p : String) (hc : clicks[i]? = some c)
    (hm : c.welcomeMessageId = messageId) (hu : c.telegramUserId = userId)
    (h1 : t1 - 5 * 60 * 1000 ≤ c.clickedAt)
    (h2 : t2 - 5 * 60 * 1000 ≤ c.clickedAt) :
    (updateClickCookies clicks messageId userId v w t1)[i]? =
        some { c with fbc := v, fbp := w } ∧
    (updateClickCookies clicks messageId userId (some b) (some p) t1)[i]? =
        some { c with fbc := some b, fbp := some p } ∧
    (updateClickCookies
        (updateClickCookies clicks messageId userId (some b) (some p) t1)
        messageId userId none none t2)[i]? =
      some { c with fbc := none, fbp := none } := by
  have hmid : (updateClickCookies clicks messageId userId (some b) (some p) t1)[i]? =
      some { c with fbc := some b, fbp := some p } := by
    rw [updateClickCookies_getElem?, hc, Option.map_some', if_pos ⟨hm, hu, h1⟩]
  refine ⟨?_, hmid, ?_⟩
  · rw [updateClickCookies_getElem?, hc, Option.map_some', if_pos ⟨hm, hu, h1⟩]
  · rw [updateClickCookies_getElem?, hmid, Option.map_some', if_pos ⟨hm, hu, h2⟩]

/-- C10 witness: a concrete second completion with nulls erases the cookies
written seconds earlier. -/
theorem updateClickCookies_overwrites_with_null_witness :
    (updateClickCookies
        (updateClickCookies
          [{ welcomeMessageId := "m2", telegramUserId := "7",
             originalUrl := "https://y.example", fbclid := none, fbc := none,
             fbp := none, userAgent := none, ipAddress := none,
             clickedAt := 1000000 }] "m2" "7" (some "fbc.1.A") (some "fbp.1.B")
          1030000)
        "m2" "7" none none 1060000)[0]? =
      some { welcomeMessageId := "m2", telegramUserId := "7",
             originalUrl := "https://y.example", fbclid := none, fbc := none,
             fbp := none, userAgent := none, ipAddress := none,
             clickedAt := 1000000 } :=
  (updateClickCookies_overwrites_with_null _ "m2" "7" none none 1030000 1060000
    0 _ "fbc.1.A" "fbp.1.B" rfl rfl rfl (by decide) (by decide)).2.2

/-- The click row `recordClickRoute` appends on a successful visit. -/
def recordedClick (messageId userId : String)
    (fbclid fbc fbp ua ip : Option String) (now : Int) (url : String) : LinkClick :=
  { welcomeMessageId := messageId,
    telegramUserId := userId,
    originalUrl := url,
    fbclid := jsOrNull fbclid,
    fbc := jsOrNull fbc,
    fbp := jsOrNull fbp,
    userAgent := jsOrNull ua,
    ipAddress := jsOrNull ip,
    clickedAt := now }

/-- On a resolvable message with a truthy button link, `recordClickRoute` only
appends the one new click row and leaves the rest of the store alone. -/
theorem recordClickRoute_success_store (s : Store) (messageId userId : String)
    (fbclid fbc fbp ua ip : Option String) (direct : Bool) (now : Int)
    (m : WelcomeMessage)
    (hm : s.welcomeMessages.find? (fun w => w.id = messageId) = some m)
    (hb : jsTruthy m.buttonLink = true) :
    (recordClickRoute s messageId userId fbclid fbc fbp ua ip direct now).2 =
      { s with linkClicks := s.linkClicks ++
          [recordedClick messageId userId fbclid fbc fbp ua ip now
            (m.buttonLink.getD "")] } := by
  unfold recordClickRoute
  rw [hm]
  simp [hb, trackLinkClick, recordedClick]

/-- C9: recording a click (with a captured attribution id) and then, within
the freshness window, completing its cookies with non-null values yields a
readable row whose three advertising fields are all populated and whose
`clickedAt` is the original recording time, unchanged by the completion. -/
theorem click_cookie_roundTrip (s : Store) (messageId userId : String)
    (a b p : String) (ua ip : Option String) (direct : Bool) (t0 t1 : Int)
    (m : WelcomeMessage)
    (hm : s.welcomeMessages.find? (fun w => w.id = messageId) = some m)
    (hb : jsTruthy m.buttonLink = true) (ha : a ≠ "")
    (hwin : t1 - 5 * 60 * 1000 ≤ t0) :
    ∃ r, (updateClickCookies
        (recordClickRoute s messageId userId (some a) none none ua ip direct
          t0).2.linkClicks messageId userId (some b) (some p) t1).getLast? =
          some r ∧
      r.fbclid = some a ∧ r.fbc = some b ∧ r.fbp = some p ∧ r.clickedAt = t0 := by
  rw [recordClickRoute_success_store s messageId userId (some a) none none ua ip
    direct t0 m hm hb]
  refine ⟨{ recordedClick messageId userId (some a) none none ua ip t0
      (m.buttonLink.getD "") with fbc := some b, fbp := some p }, ?_, ?_, rfl, rfl, rfl⟩
  · show (updateClickCookies (s.linkClicks ++ [_]) _ _ _ _ _).getLast? = _
    unfold updateClickCookies
    rw [List.map_append, List.map_singleton, List.getLast?_concat,
      if_pos ⟨rfl, rfl, hwin⟩]
  · show jsOrNull (some a) = some a
    simp [jsOrNull, jsTruthy, ha]

/-- A concrete message configuration used by the concrete instantiations. -/
def sampleMessage : WelcomeMessage :=
  { id := "wm1", source := "facebookads",
    message := "Hi \x7bfirstName\x7d, welcome!", isEnabled := "true",
    title := "Facebook Ads Welcome", buttonText := some "Open",
    buttonLink := some "https://dest.example/page" }

/-- A concrete bot user used by the concrete instantiations. -/
def sampleUser : BotUser :=
  { telegramId := "42", username := some "ann42", firstName := some "Ann",
    lastName := none, source := "facebookads", fbclid := some "IwAR000",
    campusFreeChannel := ChannelStatus.notjoined, channelJoinedAt := none,
    joinedAt := 0, lastActiveAt := 0, isActive := "active", messageCount := 3 }

/-- A concrete store used by the concrete instantiations. -/
def sampleStore : Store :=
  { botUsers := [sampleUser], welcomeMessages := [sampleMessage],
    linkClicks := [] }

/-- C9 witness: the round trip at a concrete store. -/
theorem click_cookie_roundTrip_witness :
    ∃ r, (updateClickCookies
        (recordClickRoute sampleStore "wm1" "42" (some "IwAR123") none none none
          none false 50000).2.linkClicks "wm1" "42" (some "fb.1.C")
        (some "fb.1.P") 80000).getLast? = some r ∧
      r.fbclid = some "IwAR123" ∧ r.fbc = some "fb.1.C" ∧
      r.fbp = some "fb.1.P" ∧ r.clickedAt = 50000 :=
  click_cookie_roundTrip sampleStore "wm1" "42" "IwAR123" "fb.1.C" "fb.1.P" none
    none false 50000 80000 sampleMessage (by decide) (by decide) (by decide)
    (by decide)

/-- C5: the `/r/:messageId/:userId` handler answers NotFound — writing no
record — when the referenced message configuration or its destination URL is
absent, and otherwise appends exactly one new click row with
`clickedAt = now`, leaving every existing row (and the rest of the store)
untouched, so repeated visits never overwrite a prior record. -/
theorem recordClickRoute_spec (s : Store) (messageId userId : String)
    (fbclid fbc fbp ua ip : Option String) (direct : Bool) (now : Int) :
    (s.welcomeMessages.find? (fun m => m.id = messageId) = none →
      recordClickRoute s messageId userId fbclid fbc fbp ua ip direct now =
        (ClickResponse.notFound, s)) ∧
    (∀ m, s.welcomeMessages.find? (fun m => m.id = messageId) = some m →
      jsTruthy m.buttonLink = false →
      recordClickRoute s messageId userId fbclid fbc fbp ua ip direct now =
        (ClickResponse.notFound, s)) ∧
    (∀ m, s.welcomeMessages.find? (fun m => m.id = messageId) = some m →
      jsTruthy m.buttonLink = true →
      (recordClickRoute s messageId userId fbclid fbc fbp ua ip direct now).2 =
        { s with linkClicks := s.linkClicks ++
            [recordedClick messageId userId fbclid fbc fbp ua ip now
              (m.buttonLink.getD "")] }) := by
  refine ⟨?_, ?_, ?_⟩
  · intro hnone
    unfold recordClickRoute
    rw [hnone]
  · intro m hm hfalse
    unfold recordClickRoute
    rw [hm]
    simp [hfalse]
  · intro m hm htrue
    exact recordClickRoute_success_store s messageId userId fbclid fbc fbp ua ip
      direct now m hm htrue

/-- C5 witness: a concrete visit appends one row and a visit to a missing
message writes nothing. -/
theorem recordClickRoute_spec_witness :
    (recordClickRoute sampleStore "missing" "42" none none none none none true
        1000 = (ClickResponse.notFound, sampleStore)) ∧
    (recordClickRoute sampleStore "wm1" "42" none none none none none true
        1000).2 =
      { sampleStore with linkClicks := sampleStore.linkClicks ++
          [recordedClick "wm1" "42" none none none none none 1000
            "https://dest.example/page"] } := by
  constructor
  · exact (recordClickRoute_spec sampleStore "missing" "42" none none none none
      none true 1000).1 (by decide)
  · have h := (recordClickRoute_spec sampleStore "wm1" "42" none none none none
      none true 1000).2.2 sampleMessage (by decide) (by decide)
    rw [h]
    rfl

/-- C2: TryFireConversion (`fireChannelJoinConversion`) issues no external
call and skips when no click of the user lies within the last 2 minutes or
when the located record misses a cookie id; a located record with both
cookie ids populated yields exactly one external call carrying the two
cookie ids as the user-matching tokens. -/
theorem fireChannelJoinConversion_spec (clicks : List LinkClick) (uid : String)
    (now : Int) (api : ApiOutcome) :
    ((∀ c ∈ clicks, c.telegramUserId = uid →
        c.clickedAt < now - 2 * 60 * 1000) →
      fireChannelJoinConversion clicks uid now api =
        (ConvResult.skippedNoRecentData, [])) ∧
    (∀ cd, getRecentClickData clicks uid 2 now = some cd →
      cd.fbc = none ∨ cd.fbp = none →
      fireChannelJoinConversion clicks uid now api =
        (ConvResult.skippedNoRecentData, [])) ∧
    (∀ cd a b, getRecentClickData clicks uid 2 now = some cd →
      cd.fbc = some a → a ≠ "" → cd.fbp = some b → b ≠ "" →
      (fireChannelJoinConversion clicks uid now api).2 =
        [{ eventName := "Contact", eventTime := now / 1000, fbc := a, fbp := b,
           contentName := "Campus Free Channel Join",
           contentCategory := "Channel Membership" }] ∧
      (fireChannelJoinConversion clicks uid now api).1 ≠
        ConvResult.skippedNoRecentData) := by
  refine ⟨?_, ?_, ?_⟩
  · intro h
    have hf : (clicks.filter fun c =>
        c.telegramUserId = uid ∧ now - 2 * 60 * 1000 ≤ c.clickedAt) = [] := by
      rw [List.filter_eq_nil_iff]
      intro c hcmem
      simp only [decide_eq_true_eq, not_and, not_le]
      intro hid
      exact h c hcmem hid
    have hnone : getRecentClickData clicks uid 2 now = none := by
      unfold getRecentClickData
      simp only at hf ⊢
      rw [hf]
      rfl
    unfold fireChannelJoinConversion
    rw [hnone]
  · intro cd hcd hor
    unfold fireChannelJoinConversion
    rw [hcd]
    rcases hor with h | h <;> simp [jsTruthy, h]
  · intro cd a b hcd hfbc ha hfbp hb
    have hta : jsTruthy cd.fbc = true := by simp [jsTruthy, hfbc, ha]
    have htb : jsTruthy cd.fbp = true := by simp [jsTruthy, hfbp, hb]
    simp only [fireChannelJoinConversion, hcd, hta, htb]
    cases api <;> simp [hfbc, hfbp]

/-- A concrete complete click used by the conversion witness. -/
def convClick : LinkClick :=
  { welcomeMessageId := "wm1", telegramUserId := "42",
    originalUrl := "https://dest.example/page", fbclid := some "IwAR123",
    fbc := some "fb.1.C", fbp := some "fb.1.P", userAgent := none,
    ipAddress := none, clickedAt := 100000 }

/-- C2 witness: a concrete recent click with both cookies yields exactly one
call carrying them. -/
theorem fireChannelJoinConversion_spec_witness :
    (fireChannelJoinConversion [convClick] "42" 150000 ApiOutcome.ok).2 =
      [{ eventName := "Contact", eventTime := 150, fbc := "fb.1.C",
         fbp := "fb.1.P", contentName := "Campus Free Channel Join",
         contentCategory := "Channel Membership" }] ∧
    (fireChannelJoinConversion [convClick] "42" 150000 ApiOutcome.ok).1 ≠
      ConvResult.skippedNoRecentData :=
  (fireChannelJoinConversion_spec [convClick] "42" 150000 ApiOutcome.ok).2.2
    convClick "fb.1.C" "fb.1.P" (by decide) rfl (by decide) rfl (by decide)

/-- find? commutes with mapping a function that does not change the tested
field. -/
theorem find?_map_of_pred_comm {α : Type} (g : α → α) (p : α → Bool)
    (hg : ∀ a, p (g a) = p a) (l : List α) :
    (l.map g).find? p = (l.find? p).map g := by
  induction l with
  | nil => rfl
  | cons a rest ih =>
    simp only [List.map_cons, List.find?_cons, hg a]
    by_cases h : p a
    · simp [h]
    · simp [h, ih]

/-- Effect of `updateChannelStatus` on an arbitrary lookup. -/
theorem find?_updateChannelStatus (users : List BotUser) (uid uid2 : String)
    (st : ChannelStatus) (now : Int) :
    (updateChannelStatus users uid st now).find? (fun u => u.telegramId = uid2) =
      (users.find? (fun u => u.telegramId = uid2)).map fun u =>
        if u.telegramId = uid then
          { u with campusFreeChannel := st,
                   channelJoinedAt :=
                     if st = ChannelStatus.joined then some now
                     else u.channelJoinedAt }
        else u := by
  unfold updateChannelStatus
  refine find?_map_of_pred_comm _ _ (fun a => ?_) users
  by_cases h : a.telegramId = uid <;> simp [h]

/-- C1: `handleChatMemberUpdate` classifies a transition as a detected join —
invoking the Conversion Correlator — exactly when the update is for the
configured channel, the user is known to the store, the old external status
is `left` or `kicked`, and the new external status is
`member`/`administrator`/`creator`; every other classification attempts no
conversion call, so a joined-to-left transition never triggers one. -/
theorem handleChatMemberUpdate_joinDetected_iff (s : Store)
    (upd : ChatMemberUpdate) (now : Int) (api : ApiOutcome) :
    ((handleChatMemberUpdate s upd now api).2.1 = TransitionKind.joinDetected ↔
      toString upd.chat.id = campusChannelId ∧
      (getBotUserByTelegramId s
        (toString upd.new_chat_member.user.id)).isSome = true ∧
      (upd.old_chat_member.status = ChatMemberStatus.left ∨
        upd.old_chat_member.status = ChatMemberStatus.kicked) ∧
      (upd.new_chat_member.status = ChatMemberStatus.member ∨
        upd.new_chat_member.status = ChatMemberStatus.administrator ∨
        upd.new_chat_member.status = ChatMemberStatus.creator)) ∧
    ((handleChatMemberUpdate s upd now api).2.1 ≠ TransitionKind.joinDetected →
      (handleChatMemberUpdate s upd now api).2.2 = []) := by
  by_cases hchat : toString upd.chat.id = campusChannelId
  · cases hfind : getBotUserByTelegramId s (toString upd.new_chat_member.user.id) with
    | none => simp [handleChatMemberUpdate, hchat, hfind]
    | some bu =>
      by_cases hnew : upd.new_chat_member.status = ChatMemberStatus.member ∨
          upd.new_chat_member.status = ChatMemberStatus.administrator ∨
          upd.new_chat_member.status = ChatMemberStatus.creator
      · by_cases hold : upd.old_chat_member.status = ChatMemberStatus.left ∨
            upd.old_chat_member.status = ChatMemberStatus.kicked
        · simp [handleChatMemberUpdate, hchat, hfind, hnew, hold]
        · simp [handleChatMemberUpdate, hchat, hfind, hnew, hold]
      · by_cases hleft : upd.new_chat_member.status = ChatMemberStatus.left ∨
            upd.new_chat_member.status = ChatMemberStatus.kicked
        · simp [handleChatMemberUpdate, hchat, hfind, hnew, hleft]
        · simp [handleChatMemberUpdate, hchat, hfind, hnew, hleft]
  · simp [handleChatMemberUpdate, hchat]

/-- The concrete Telegram user behind `sampleUser`. -/
def tgAnn : TgUser :=
  { id := 42, is_bot := false, first_name := "Ann", last_name := none,
    username := some "ann42" }

/-- A concrete left-to-member transition on the configured channel. -/
def joinUpdate : ChatMemberUpdate :=
  { chat := { id := -1001930548228, type := "channel" },
    sender := tgAnn, date := 1111,
    old_chat_member := { user := tgAnn, status := ChatMemberStatus.left },
    new_chat_member := { user := tgAnn, status := ChatMemberStatus.member } }

/-- C1 witness: the concrete left-to-member transition is a detected join. -/
theorem handleChatMemberUpdate_joinDetected_iff_witness :
    (handleChatMemberUpdate sampleStore joinUpdate 99 ApiOutcome.ok).2.1 =
      TransitionKind.joinDetected :=
  (handleChatMemberUpdate_joinDetected_iff sampleStore joinUpdate 99
    ApiOutcome.ok).1.mpr (by decide)

/-- A concrete member-to-kicked transition on the configured channel. -/
def kickUpdate : ChatMemberUpdate :=
  { chat := { id := -1001930548228, type := "channel" },
    sender := tgAnn, date := 2222,
    old_chat_member := { user := tgAnn, status := ChatMemberStatus.member },
    new_chat_member := { user := tgAnn, status := ChatMemberStatus.kicked } }

/-- A concrete member-to-restricted transition on the configured channel. -/
def restrictedUpdate : ChatMemberUpdate :=
  { chat := { id := -1001930548228, type := "channel" },
    sender := tgAnn, date := 3333,
    old_chat_member := { user := tgAnn, status := ChatMemberStatus.member },
    new_chat_member := { user := tgAnn, status := ChatMemberStatus.restricted } }

/-- C3 counterexample: on the configured channel with a known user, a new
external status `kicked` is persisted as internal `left` — not `joined` as
claimed — and a new status `restricted` is skipped with no state change at
all, rather than collapsing to `joined`. -/
theorem kicked_restricted_not_mapped_to_joined :
    (handleChatMemberUpdate sampleStore kickUpdate 50 ApiOutcome.ok).1.botUsers.map
        (fun u => u.campusFreeChannel) = [ChannelStatus.left] ∧
    ¬ ((handleChatMemberUpdate sampleStore kickUpdate 50
        ApiOutcome.ok).1.botUsers.map (fun u => u.campusFreeChannel) =
      [ChannelStatus.joined]) ∧
    (handleChatMemberUpdate sampleStore restrictedUpdate 50 ApiOutcome.ok).1 =
      sampleStore := by
  decide

/-- C3 corrected: for an update on the configured channel about a known user,
the machine maps new statuses `member`/`administrator`/`creator` to internal
`joined`, maps `left`/`kicked` to internal `left`, and ignores `restricted`
(no state change); statuses outside the channel of interest are ignored
upstream. -/
theorem membership_status_mapping (s : Store) (upd : ChatMemberUpdate)
    (now : Int) (api : ApiOutcome)
    (hchat : toString upd.chat.id = campusChannelId) (bu : BotUser)
    (hknown : getBotUserByTelegramId s
      (toString upd.new_chat_member.user.id) = some bu) :
    ((upd.new_chat_member.status = ChatMemberStatus.member ∨
      upd.new_chat_member.status = ChatMemberStatus.administrator ∨
      upd.new_chat_member.status = ChatMemberStatus.creator) →
      (handleChatMemberUpdate s upd now api).1.botUsers =
        updateChannelStatus s.botUsers (toString upd.new_chat_member.user.id)
          ChannelStatus.joined now) ∧
    ((upd.new_chat_member.status = ChatMemberStatus.left ∨
      upd.new_chat_member.status = ChatMemberStatus.kicked) →
      (handleChatMemberUpdate s upd now api).1.botUsers =
        updateChannelStatus s.botUsers (toString upd.new_chat_member.user.id)
          ChannelStatus.left now) ∧
    (upd.new_chat_member.status = ChatMemberStatus.restricted →
      (handleChatMemberUpdate s upd now api).1 = s ∧
      (handleChatMemberUpdate s upd now api).2.1 =
        TransitionKind.skippedOtherStatus) := by
  refine ⟨?_, ?_, ?_⟩
  · intro hnew
    by_cases hold : upd.old_chat_member.status = ChatMemberStatus.left ∨
        upd.old_chat_member.status = ChatMemberStatus.kicked
    · simp [handleChatMemberUpdate, hchat, hknown, hnew, hold]
    · simp [handleChatMemberUpdate, hchat, hknown, hnew, hold]
  · intro hlk
    have hnew : ¬ (upd.new_chat_member.status = ChatMemberStatus.member ∨
        upd.new_chat_member.status = ChatMemberStatus.administrator ∨
        upd.new_chat_member.status = ChatMemberStatus.creator) := by
      rcases hlk with h | h <;> simp [h]
    simp [handleChatMemberUpdate, hchat, hknown, hnew, hlk]
  · intro hr
    have hnew : ¬ (upd.new_chat_member.status = ChatMemberStatus.member ∨
        upd.new_chat_member.status = ChatMemberStatus.administrator ∨
        upd.new_chat_member.status = ChatMemberStatus.creator) := by simp [hr]
    have hlk : ¬ (upd.new_chat_member.status = ChatMemberStatus.left ∨
        upd.new_chat_member.status = ChatMemberStatus.kicked) := by simp [hr]
    simp [handleChatMemberUpdate, hchat, hknown, hnew, hlk]

/-- C3 witness: the concrete kicked transition lands in internal `left`. -/
theorem membership_status_mapping_witness :
    (handleChatMemberUpdate sampleStore kickUpdate 50 ApiOutcome.ok).1.botUsers =
      updateChannelStatus sampleStore.botUsers
        (toString kickUpdate.new_chat_member.user.id) ChannelStatus.left 50 :=
  (membership_status_mapping sampleStore kickUpdate 50 ApiOutcome.ok (by decide)
    sampleUser (by decide)).2.1 (Or.inr rfl)

/-- The stored `channelJoinedAt` of a user: `none` when the user is unknown,
`some v` with the column value otherwise. -/
def joinedAtOf (s : Store) (uid : String) : Option (Option Int) :=
  (getBotUserByTelegramId s uid).map fun u => u.channelJoinedAt

/-- Effect of `updateChannelStatus` on `joinedAtOf`: only a `joined` write to
the same user touches the column, setting it to the write time. -/
theorem joinedAtOf_updateChannelStatus (s : Store) (uid uid2 : String)
    (st : ChannelStatus) (now : Int) :
    joinedAtOf { s with botUsers := updateChannelStatus s.botUsers uid st now }
        uid2 =
      if uid2 = uid ∧ st = ChannelStatus.joined then
        (joinedAtOf s uid2).map fun _ => some now
      else joinedAtOf s uid2 := by
  unfold joinedAtOf getBotUserByTelegramId
  show ((updateChannelStatus s.botUsers uid st now).find?
      (fun u => u.telegramId = uid2)).map (fun u => u.channelJoinedAt) = _
  rw [find?_updateChannelStatus]
  cases hf : s.botUsers.find? (fun u => u.telegramId = uid2) with
  | none => simp
  | some u =>
    have hu : u.telegramId = uid2 := by
      have := List.find?_some hf
      simpa using this
    by_cases h1 : uid2 = uid
    · by_cases h2 : st = ChannelStatus.joined
      · simp [hu, h1, h2]
      · simp [hu, h1, h2]
    · have : ¬ u.telegramId = uid := by rw [hu]; exact h1
      simp [this, h1]

/-- One webhook membership update applied to the store. -/
def stepStore (s : Store) (x : ChatMemberUpdate × Int × ApiOutcome) : Store :=
  (handleChatMemberUpdate s x.1 x.2.1 x.2.2).1

/-- A sequence of webhook membership updates applied in arrival order. -/
def applyUpdates (s : Store) (xs : List (ChatMemberUpdate × Int × ApiOutcome)) :
    Store :=
  xs.foldl stepStore s

/-- One `handleChatMemberUpdate` either leaves a user's `channelJoinedAt`
alone or — only on a transition whose new status maps to joined — stamps it
with the update time. -/
theorem joinedAtOf_handleChatMemberUpdate (s : Store) (upd : ChatMemberUpdate)
    (now : Int) (api : ApiOutcome) (uid2 : String) :
    joinedAtOf (handleChatMemberUpdate s upd now api).1 uid2 = joinedAtOf s uid2 ∨
    ((upd.new_chat_member.status = ChatMemberStatus.member ∨
      upd.new_chat_member.status = ChatMemberStatus.administrator ∨
      upd.new_chat_member.status = ChatMemberStatus.creator) ∧
     joinedAtOf (handleChatMemberUpdate s upd now api).1 uid2 =
       (joinedAtOf s uid2).map fun _ => some now) := by
  by_cases hchat : toString upd.chat.id = campusChannelId
  · cases hfind : getBotUserByTelegramId s (toString upd.new_chat_member.user.id) with
    | none => left; simp [handleChatMemberUpdate, hchat, hfind]
    | some bu =>
      by_cases hnew : upd.new_chat_member.status = ChatMemberStatus.member ∨
          upd.new_chat_member.status = ChatMemberStatus.administrator ∨
          upd.new_chat_member.status = ChatMemberStatus.creator
      · have hstore : (handleChatMemberUpdate s upd now api).1 =
            { s with botUsers := (updateChannelStatus s.botUsers
                (toString upd.new_chat_member.user.id) ChannelStatus.joined now) } := by
          by_cases hold : upd.old_chat_member.status = ChatMemberStatus.left ∨
              upd.old_chat_member.status = ChatMemberStatus.kicked
          · simp [handleChatMemberUpdate, hchat, hfind, hnew, hold]
          · simp [handleChatMemberUpdate, hchat, hfind, hnew, hold]
        rw [hstore, joinedAtOf_updateChannelStatus]
        by_cases h1 : uid2 = toString upd.new_chat_member.user.id
        · right
          exact ⟨hnew, by simp [h1]⟩
        · left
          simp [h1]
      · by_cases hleft : upd.new_chat_member.status = ChatMemberStatus.left ∨
            upd.new_chat_member.status = ChatMemberStatus.kicked
        · left
          have hstore : (handleChatMemberUpdate s upd now api).1 =
              { s with botUsers := (updateChannelStatus s.botUsers
                  (toString upd.new_chat_member.user.id) ChannelStatus.left now) } := by
            simp [handleChatMemberUpdate, hchat, hfind, hnew, hleft]
          rw [hstore, joinedAtOf_updateChannelStatus]
          simp
        · left; simp [handleChatMemberUpdate, hchat, hfind, hnew, hleft]
  · left; simp [handleChatMemberUpdate, hchat]

/-- C6: `channelJoinedAt` is written only by a transition whose new status
maps to joined (and then to the join time), and no sequence of membership
updates ever clears it: a user once observed joining keeps a non-null
`channelJoinedAt`. -/
theorem channelJoinedAt_never_cleared (s : Store)
    (xs : List (ChatMemberUpdate × Int × ApiOutcome)) (uid : String) (t : Int)
    (h : joinedAtOf s uid = some (some t)) :
    (∃ t2, joinedAtOf (applyUpdates s xs) uid = some (some t2)) ∧
    (∀ (s2 : Store) (upd : ChatMemberUpdate) (now : Int) (api : ApiOutcome)
        (uid2 : String),
      joinedAtOf (handleChatMemberUpdate s2 upd now api).1 uid2 ≠
        joinedAtOf s2 uid2 →
      (upd.new_chat_member.status = ChatMemberStatus.member ∨
        upd.new_chat_member.status = ChatMemberStatus.administrator ∨
        upd.new_chat_member.status = ChatMemberStatus.creator) ∧
      joinedAtOf (handleChatMemberUpdate s2 upd now api).1 uid2 =
        some (some now)) := by
  constructor
  · induction xs generalizing s t with
    | nil => exact ⟨t, h⟩
    | cons x rest ih =>
      show ∃ t2, joinedAtOf (applyUpdates (stepStore s x) rest) uid = some (some t2)
      rcases joinedAtOf_handleChatMemberUpdate s x.1 x.2.1 x.2.2 uid with hsame | ⟨_, hset⟩
      · exact ih (stepStore s x) t (by rw [stepStore, hsame, h])
      · exact ih (stepStore s x) x.2.1 (by rw [stepStore, hset, h]; rfl)
  · intro s2 upd now api uid2 hne
    rcases joinedAtOf_handleChatMemberUpdate s2 upd now api uid2 with hsame | ⟨hnew, hset⟩
    · exact absurd hsame hne
    · refine ⟨hnew, ?_⟩
      rw [hset]
      cases hv : joinedAtOf s2 uid2 with
      | none => exact absurd (by rw [hset, hv]; rfl) hne
      | some v => rfl

/-- A concrete user who has already been observed joining. -/
def joinedAnn : BotUser :=
  { sampleUser with
    campusFreeChannel := ChannelStatus.joined,
    channelJoinedAt := some 7 }

/-- A concrete store whose only user has joined at time 7. -/
def joinedStore : Store :=
  { botUsers := [joinedAnn], welcomeMessages := [], linkClicks := [] }

/-- A concrete member-to-left transition on the configured channel. -/
def leaveUpdate : ChatMemberUpdate :=
  { chat := { id := -1001930548228, type := "channel" },
    sender := tgAnn, date := 4444,
    old_chat_member := { user := tgAnn, status := ChatMemberStatus.member },
    new_chat_member := { user := tgAnn, status := ChatMemberStatus.left } }

/-- C6 witness: after a concrete leave the join timestamp survives. -/
theorem channelJoinedAt_never_cleared_witness :
    ∃ t2, joinedAtOf
        (applyUpdates joinedStore [(leaveUpdate, 500, ApiOutcome.ok)]) "42" =
      some (some t2) :=
  (channelJoinedAt_never_cleared joinedStore [(leaveUpdate, 500, ApiOutcome.ok)]
    "42" 7 (by decide)).1

/-- C7: the external Conversion API outcome never leaks out of the pipeline —
the store produced by `handleChatMemberUpdate` is identical for every API
outcome — and on a detected join the user's channel status is persisted as
`joined` with the join time stamped, whether the external call succeeded,
failed, or threw. -/
theorem conversion_failure_isolated (s : Store) (upd : ChatMemberUpdate)
    (now : Int) (api : ApiOutcome)
    (hchat : toString upd.chat.id = campusChannelId)
    (hold : upd.old_chat_member.status = ChatMemberStatus.left ∨
      upd.old_chat_member.status = ChatMemberStatus.kicked)
    (hnew : upd.new_chat_member.status = ChatMemberStatus.member ∨
      upd.new_chat_member.status = ChatMemberStatus.administrator ∨
      upd.new_chat_member.status = ChatMemberStatus.creator)
    (bu : BotUser)
    (hknown : getBotUserByTelegramId s
      (toString upd.new_chat_member.user.id) = some bu) :
    (∀ (s2 : Store) (u2 : ChatMemberUpdate) (n2 : Int) (o1 o2 : ApiOutcome),
      (handleChatMemberUpdate s2 u2 n2 o1).1 =
        (handleChatMemberUpdate s2 u2 n2 o2).1) ∧
    getBotUserByTelegramId (handleChatMemberUpdate s upd now api).1
        (toString upd.new_chat_member.user.id) =
      some { bu with
             campusFreeChannel := ChannelStatus.joined,
             channelJoinedAt := some now } := by
  constructor
  · intro s2 u2 n2 o1 o2
    by_cases hc : toString u2.chat.id = campusChannelId
    · cases hf : getBotUserByTelegramId s2 (toString u2.new_chat_member.user.id) with
      | none => simp [handleChatMemberUpdate, hc, hf]
      | some b2 =>
        by_cases hn : u2.new_chat_member.status = ChatMemberStatus.member ∨
            u2.new_chat_member.status = ChatMemberStatus.administrator ∨
            u2.new_chat_member.status = ChatMemberStatus.creator
        · by_cases ho : u2.old_chat_member.status = ChatMemberStatus.left ∨
              u2.old_chat_member.status = ChatMemberStatus.kicked
          · simp [handleChatMemberUpdate, hc, hf, hn, ho]
          · simp [handleChatMemberUpdate, hc, hf, hn, ho]
        · by_cases hl : u2.new_chat_member.status = ChatMemberStatus.left ∨
              u2.new_chat_member.status = ChatMemberStatus.kicked
          · simp [handleChatMemberUpdate, hc, hf, hn, hl]
          · simp [handleChatMemberUpdate, hc, hf, hn, hl]
    · simp [handleChatMemberUpdate, hc]
  · have hstore : (handleChatMemberUpdate s upd now api).1 =
        { s with botUsers := (updateChannelStatus s.botUsers
            (toString upd.new_chat_member.user.id) ChannelStatus.joined now) } := by
      simp [handleChatMemberUpdate, hchat, hknown, hnew, hold]
    rw [hstore]
    have hbu : bu.telegramId = toString upd.new_chat_member.user.id := by
      have := List.find?_some hknown
      simpa using this
    unfold getBotUserByTelegramId at hknown ⊢
    show ((updateChannelStatus s.botUsers _ ChannelStatus.joined now).find? _) = _
    rw [find?_updateChannelStatus, hknown]
    simp [hbu]

/-- C7 witness: at the concrete join the stores for a thrown call and a
successful call coincide, and the status is joined either way. -/
theorem conversion_failure_isolated_witness :
    (handleChatMemberUpdate sampleStore joinUpdate 99
        (ApiOutcome.networkThrow "boom")).1 =
      (handleChatMemberUpdate sampleStore joinUpdate 99 ApiOutcome.ok).1 ∧
    getBotUserByTelegramId
        (handleChatMemberUpdate sampleStore joinUpdate 99
          (ApiOutcome.networkThrow "boom")).1
        (toString joinUpdate.new_chat_member.user.id) =
      some { sampleUser with
             campusFreeChannel := ChannelStatus.joined,
             channelJoinedAt := some 99 } := by
  have h := conversion_failure_isolated sampleStore joinUpdate 99
    (ApiOutcome.networkThrow "boom") (by decide) (Or.inl rfl) (Or.inl rfl)
    sampleUser (by decide)
  exact ⟨h.1 sampleStore joinUpdate 99 (ApiOutcome.networkThrow "boom")
    ApiOutcome.ok, h.2⟩

/-- C8: every parsed webhook body gets a 200 — `processUpdate` returns
normally for every oracle, store and envelope (malformed non-object bodies
included), so the route's 500 branch is unreachable. -/
theorem webhook_always_ok (o : Oracle) (s : Store) (env : UpdateEnvelope)
    (now : Int) :
    (∃ r, processUpdate o s env now = Except.ok r) ∧
    (webhookRoute o s env now).1.status = 200 := by
  have h : ∃ r, processUpdate o s env now = Except.ok r := by
    unfold processUpdate
    cases hb : processUpdateBody o s env now with
    | ok r => exact ⟨r, rfl⟩
    | error e => exact ⟨(e.2, []), rfl⟩
  refine ⟨h, ?_⟩
  obtain ⟨r, hr⟩ := h
  unfold webhookRoute
  rw [hr]
